import Mathlib

/-!
Verification development for the crypto signal-trading backend
(telegram_parser.py, binance_service.py, trade_service.py,
telegram_listener.py), shallowly embedded in Lean.

Modelling conventions:
* Python floats and `Numeric` columns are modelled as `ℚ` (exact
  arithmetic); `round(x, n)` is modelled as decimal round-half-to-even
  (`pyRound`), Python's documented rounding mode.
* Python strings are modelled as `List Char`; `str.upper()`/`lower()`
  are modelled characterwise via `Char.toUpper`/`Char.toLower`, which is
  exact for ASCII text and for the non-ASCII marker glyphs appearing in
  the source (those have no ASCII case mappings).
* The regular-expression searches of the parser are embedded as
  deterministic leftmost scanners that reproduce Python `re.search`
  backtracking semantics for the concrete patterns of the source (each
  pattern is simple enough that greedy maximal munch plus explicit
  alternation order is equivalent to full backtracking; this is argued
  pattern by pattern in the comments below).
* Network calls of the Binance service are modelled by an explicit
  environment record (`ExchangeEnv`) holding the exchange's responses;
  database state is an explicit record (`Db`) threaded through the
  service functions.  Timestamps are abstract naturals.
-/

/- The Batteries rational-number operations are `irreducible`, which
blocks `decide`-based evaluation of concrete signal computations; the
kernel itself ignores reducibility, so unsealing them is harmless. -/
set_option allowUnsafeReducibility true in
attribute [semireducible] Rat.add Rat.sub Rat.mul Rat.inv Rat.ofScientific

namespace CryptoMgr

/-! ## Python-style numeric helpers -/

/-- Round a rational to the nearest integer, ties to even
(Python `round` / IEEE round-half-even, on the exact value). -/
def rhe (q : ℚ) : ℤ :=
  if q - q.floor < 1/2 then q.floor
  else if 1/2 < q - q.floor then q.floor + 1
  else if q.floor % 2 = 0 then q.floor else q.floor + 1

/-- Python `round(q, n)` for `n ≥ 0` fractional digits, on exact values. -/
def pyRound (n : ℕ) (q : ℚ) : ℚ :=
  (rhe (q * 10 ^ n) : ℚ) / 10 ^ n

/-- Digit list to natural number, most significant first. -/
def digitsToNat (ds : List Char) : ℕ :=
  ds.foldl (fun a c => 10 * a + (c.toNat - 48)) 0

/-- Value of a decimal literal with integer part `ip` and fractional part
`fp` (Python `float("ip.fp")`, modelled exactly). -/
def numFromParts (ip fp : List Char) : ℚ :=
  (digitsToNat ip : ℚ) + (digitsToNat fp : ℚ) / 10 ^ fp.length

/-! ## Python-style string helpers -/

/-- Python `\s` whitespace class (ASCII fragment). -/
def pyIsSpace (c : Char) : Bool :=
  c = ' ' || c = '\t' || c = '\n' || c = '\r' || c = '\x0b' || c = '\x0c'

/-- Python `message.upper()`, modelled characterwise. -/
def upperStr (cs : List Char) : List Char := cs.map Char.toUpper

/-- Python substring containment `needle in hay`. -/
def containsSub (needle : List Char) : List Char → Bool
  | [] => needle.isEmpty
  | c :: t => needle.isPrefixOf (c :: t) || containsSub needle t

/-! ## TelegramParser (telegram_parser.py)

`ParsedSignalData` is the dataclass returned by `parse_message`. -/

structure ParsedSignalData where
  pair : String
  setup_type : String
  entry : ℚ
  stop_loss : ℚ
  take_profit : ℚ
  original_sl : Option ℚ
  original_tp : Option ℚ
deriving Repr, DecidableEq

/-- Case-insensitive literal match at the head of the input: `ks` is the
lowercased keyword; returns the rest of the input on success. -/
def matchCI : List Char → List Char → Option (List Char)
  | [], cs => some cs
  | _ :: _, [] => none
  | k :: ks, c :: cs => if c.toLower = k then matchCI ks cs else none

/-- Match `\d+\.?\d*` at the head of the input (greedy; no observable
backtracking exists for this subpattern since everything after the first
digit run is optional), returning the value and the rest. -/
def matchNumber (cs : List Char) : Option (ℚ × List Char) :=
  let ip := cs.takeWhile Char.isDigit
  if ip.isEmpty then none
  else
    match cs.dropWhile Char.isDigit with
    | '.' :: r2 =>
        some (numFromParts ip (r2.takeWhile Char.isDigit), r2.dropWhile Char.isDigit)
    | r1 => some ((digitsToNat ip : ℚ), r1)

/-! ### Entry price: `Entry[:\s]*\$?(\d+\.?\d*)` (IGNORECASE), with the
CMP fallback `(\d+\.?\d*)\s*\(?CMP\)?`.  For both patterns greedy
maximal munch is equivalent to Python backtracking: after the maximal
`[:\s]*`/`\s*` run the next character is outside the class, and shorter
runs leave a class character which can match neither `\$?`-then-digit
nor `\(?`-then-`C`. -/

def entryAt (cs : List Char) : Option ℚ :=
  (matchCI ['e', 'n', 't', 'r', 'y'] cs).bind fun r1 =>
    let r2 := r1.dropWhile (fun c => c = ':' || pyIsSpace c)
    let r3 := match r2 with | '$' :: t => t | _ => r2
    (matchNumber r3).map Prod.fst

def searchEntry : List Char → Option ℚ
  | [] => none
  | c :: t => entryAt (c :: t) <|> searchEntry t

def cmpAt (cs : List Char) : Option ℚ :=
  (matchNumber cs).bind fun vr =>
    let r2 := vr.2.dropWhile pyIsSpace
    let r3 := match r2 with | '(' :: t => t | _ => r2
    (matchCI ['c', 'm', 'p'] r3).map fun _ => vr.1

def searchCmp : List Char → Option ℚ
  | [] => none
  | c :: t => cmpAt (c :: t) <|> searchCmp t

/-- Embedding of `TelegramParser._extract_entry`. -/
def extract_entry (msg : List Char) : Option ℚ :=
  searchEntry msg <|> searchCmp msg

/-! ### Direction: regex `(LONG|SHORT)\s*[..]?` on `message.upper()`
(the trailing `\s*` and optional glyph class never affect success or the
captured group), then the glyph fallback of `_extract_direction`.
The marker glyphs are the exact character sequences stored in the source
file: U+F8FF U+00FC U+00FC U+00A2 ("bullish") and
U+F8FF U+00FC U+00EE U+00A5 ("bearish"). -/

def longTok : List Char := ['L', 'O', 'N', 'G']

def shortTok : List Char := ['S', 'H', 'O', 'R', 'T']

def greenGlyph : List Char := ['', 'ü', 'ü', '¢']

def redGlyph : List Char := ['', 'ü', 'î', '¥']

def dirAt (cs : List Char) : Option String :=
  if longTok.isPrefixOf cs then some "LONG"
  else if shortTok.isPrefixOf cs then some "SHORT"
  else none

def searchDir : List Char → Option String
  | [] => none
  | c :: t => dirAt (c :: t) <|> searchDir t

/-- Embedding of `TelegramParser._extract_direction`. -/
def extract_direction (msg : List Char) : Option String :=
  match searchDir (upperStr msg) with
  | some d => some d
  | none =>
      if containsSub greenGlyph msg && !containsSub longTok (upperStr msg) then
        some "LONG"
      else if containsSub redGlyph msg && !containsSub shortTok (upperStr msg) then
        some "SHORT"
      else none

/-! ### Trading pair: `#?([A-Z0-9]+(?:USDT|BUSD|BTC|ETH)\.?P?)` on
`message.upper()`.  The `[A-Z0-9]+` run is tried greedily from its
maximal length downwards (Python backtracking); the quote-asset
alternation is tried in source order; `\.?` and `P?` are greedy with
nothing after them. -/

def isPairChar (c : Char) : Bool := c.isUpper || c.isDigit

def quoteSuffixes : List (List Char) :=
  [['U', 'S', 'D', 'T'], ['B', 'U', 'S', 'D'], ['B', 'T', 'C'], ['E', 'T', 'H']]

/-- Try the quote-asset suffix (then `\.?P?`) after `k` leading
`[A-Z0-9]` characters; returns the captured group. -/
def pairSuffixAt (cs : List Char) (k : ℕ) : Option (List Char) :=
  (quoteSuffixes.findSome? fun sfx =>
      if sfx.isPrefixOf (cs.drop k) then some sfx.length else none).map
    fun slen =>
      let dlen : ℕ := match cs.drop (k + slen) with | '.' :: _ => 1 | _ => 0
      let plen : ℕ := match cs.drop (k + slen + dlen) with | 'P' :: _ => 1 | _ => 0
      cs.take (k + slen + dlen + plen)

def pairDown (cs : List Char) : ℕ → Option (List Char)
  | 0 => none
  | k + 1 => pairSuffixAt cs (k + 1) <|> pairDown cs k

def pairGroupAt (cs : List Char) : Option (List Char) :=
  pairDown cs (cs.takeWhile isPairChar).length

/-- Anchored match of the whole pair pattern (`#?` is greedy: with a
leading `#` the hash-consuming branch is tried first). -/
def pairAt (cs : List Char) : Option (List Char) :=
  match cs with
  | '#' :: t => pairGroupAt t <|> pairGroupAt ('#' :: t)
  | _ => pairGroupAt cs

def searchPair : List Char → Option (List Char)
  | [] => none
  | c :: t => pairAt (c :: t) <|> searchPair t

/-- Embedding of `TelegramParser._extract_pair` (match, then `.P`/`P` suffix cleanup). -/
def extract_pair (msg : List Char) : Option String :=
  (searchPair (upperStr msg)).map fun g =>
    if ['.', 'P'].isSuffixOf g then String.mk (g.dropLast.dropLast)
    else if ['P'].isSuffixOf g && !(['U', 'S', 'D', 'T'].isSuffixOf g) then
      String.mk g.dropLast
    else String.mk g

/-! ### Stated SL/TP (informational):
`(?:Stop\s*Loss|SL)[:\s]*\$?(\d+\.?\d*)` and
`(?:Take\s*Profit|TP|TP\s*\d)[:\s..]*\$?(\d+\.?\d*)` (IGNORECASE), the
latter's class containing the three mojibake arrow characters U+201A
U+00DC U+00ED from the source.  Each alternation branch is tried on the
full remaining pattern, reproducing Python's backtracking order. -/

def slTailNum (r : List Char) : Option ℚ :=
  let r2 := r.dropWhile (fun c => c = ':' || pyIsSpace c)
  let r3 := match r2 with | '$' :: t => t | _ => r2
  (matchNumber r3).map Prod.fst

def tpTailNum (r : List Char) : Option ℚ :=
  let r2 := r.dropWhile
    (fun c => c = ':' || pyIsSpace c || c = '‚' || c = 'Ü' || c = 'í')
  let r3 := match r2 with | '$' :: t => t | _ => r2
  (matchNumber r3).map Prod.fst

def slAt (cs : List Char) : Option ℚ :=
  (((matchCI ['s', 't', 'o', 'p'] cs).bind fun r1 =>
      matchCI ['l', 'o', 's', 's'] (r1.dropWhile pyIsSpace)).bind slTailNum)
  <|> (matchCI ['s', 'l'] cs).bind slTailNum

def searchSl : List Char → Option ℚ
  | [] => none
  | c :: t => slAt (c :: t) <|> searchSl t

def tpDigitAfter (r : List Char) : Option (List Char) :=
  match r.dropWhile pyIsSpace with
  | c :: t => if c.isDigit then some t else none
  | [] => none

def tpAt (cs : List Char) : Option ℚ :=
  (((matchCI ['t', 'a', 'k', 'e'] cs).bind fun r1 =>
      matchCI ['p', 'r', 'o', 'f', 'i', 't'] (r1.dropWhile pyIsSpace)).bind tpTailNum)
  <|> (matchCI ['t', 'p'] cs).bind tpTailNum
  <|> ((matchCI ['t', 'p'] cs).bind tpDigitAfter).bind tpTailNum

def searchTp : List Char → Option ℚ
  | [] => none
  | c :: t => tpAt (c :: t) <|> searchTp t

/-- Embedding of `TelegramParser._extract_stop_loss`. -/
def extract_stop_loss (msg : List Char) : Option ℚ := searchSl msg

/-- Embedding of `TelegramParser._extract_take_profit` (`findall` then first element,
i.e. the leftmost match). -/
def extract_take_profit (msg : List Char) : Option ℚ := searchTp msg

/-- Embedding of `TelegramParser._calculate_sl_tp` with configured percentages. -/
def calculate_sl_tp (slPct tpPct : ℚ) (entry : ℚ) (direction : String) : ℚ × ℚ :=
  let slm := slPct / 100
  let tpm := tpPct / 100
  if direction = "LONG" then
    (pyRound 8 (entry * (1 - slm)), pyRound 8 (entry * (1 + tpm)))
  else
    (pyRound 8 (entry * (1 + slm)), pyRound 8 (entry * (1 - tpm)))

/-- Embedding of `TelegramParser.parse_message`.  The Python truthiness tests
`if not pair` / `if not entry` fail on an empty pair string and on a
zero entry price. -/
def parse_message (slPct tpPct : ℚ) (msg : List Char) : Option ParsedSignalData :=
  match extract_pair msg, extract_direction msg, extract_entry msg with
  | some pair, some direction, some entry =>
      if pair = "" ∨ entry = 0 then none
      else
        some { pair := pair
               setup_type := direction
               entry := entry
               stop_loss := (calculate_sl_tp slPct tpPct entry direction).1
               take_profit := (calculate_sl_tp slPct tpPct entry direction).2
               original_sl := extract_stop_loss msg
               original_tp := extract_take_profit msg }
  | _, _, _ => none

/-! ## BinanceService (binance_service.py)

Network calls are modelled by an environment record of the exchange's
responses for the one symbol under consideration; datatypes mirror the
`OrderResult`/`PositionInfo` dataclasses and the relevant parts of the
`exchangeInfo` filter dictionaries. -/

structure OrderResult where
  success : Bool
  order_id : Option String := none
  client_order_id : Option String := none
  symbol : Option String := none
  side : Option String := none
  quantity : Option ℚ := none
  price : Option ℚ := none
  status : Option String := none
  message : Option String := none
deriving Repr, DecidableEq

structure PositionInfo where
  symbol : String
  side : String
  entry_price : ℚ
  quantity : ℚ
  unrealized_pnl : ℚ := 0
  leverage : ℤ := 1
  margin : ℚ := 0
  margin_type : String
  liquidation_price : Option ℚ := none
  mark_price : Option ℚ := none
  notional_value : Option ℚ := none
deriving Repr, DecidableEq

/-- One entry of a symbol's `filters` list (only the keys the service
reads); a missing key is `none` (Python `KeyError`/`.get` default). -/
structure ExchangeFilter where
  filterType : String
  stepSize : Option String := none
  tickSize : Option String := none
  notional : Option ℚ := none
deriving Repr, DecidableEq

/-- Exchange responses for one `open_position` invocation:
`existing_position` is the `get_position_for_symbol` answer,
`set_leverage_ok` the `set_leverage` outcome, `current_price` the
ticker answer, `symbol_info` the filter list from `exchangeInfo`
(`none` when the symbol lookup fails), and the three order results are
the exchange's answers to the entry / stop-loss / take-profit
submissions. -/
structure ExchangeEnv where
  existing_position : Option PositionInfo := none
  set_leverage_ok : Bool := true
  current_price : Option ℚ := none
  symbol_info : Option (List ExchangeFilter) := none
  entry_result : OrderResult := { success := false }
  sl_result : OrderResult := { success := false }
  tp_result : OrderResult := { success := false }
deriving Repr, DecidableEq

/-- Exponent of a plain decimal literal (optional sign, digits, optional
point and digits), as reported by Python `Decimal(s).as_tuple().exponent`:
`"1"` has exponent 0, `"0.001"` has exponent −3.  Returns `none` on a
malformed literal (where `Decimal` would raise). -/
def decExponent (s : String) : Option ℤ :=
  let cs := match s.toList with
    | '+' :: t => t
    | '-' :: t => t
    | cs => cs
  let ip := cs.takeWhile Char.isDigit
  match cs.dropWhile Char.isDigit with
  | [] => if ip.isEmpty then none else some 0
  | '.' :: t =>
      let fp := t.takeWhile Char.isDigit
      if (t.dropWhile Char.isDigit).isEmpty && !(ip.isEmpty && fp.isEmpty) then
        some (-(fp.length : ℤ))
      else none
  | _ => none

/-- Embedding of `BinanceService.calculate_quantity`: `quantity = margin·leverage/price`,
rounded to the precision derived from the LOT_SIZE filter's step-size
string (default precision 3 when there is no LOT_SIZE filter; `none`
when the price or the symbol info is unavailable or the step size is
missing/malformed, where the Python code returns `None` via its
`except` handler). -/
def calculate_quantity (env : ExchangeEnv) (position_size_usd : ℚ) (leverage : ℤ)
    (entry_price : Option ℚ) : Option ℚ :=
  let price? : Option ℚ := match entry_price with
    | some p => if p = 0 then env.current_price else some p
    | none => env.current_price
  match price? with
  | none => none
  | some price =>
    if price = 0 then none
    else match env.symbol_info with
    | none => none
    | some filters =>
      let quantity := position_size_usd * (leverage : ℚ) / price
      match filters.find? (fun f => f.filterType = "LOT_SIZE") with
      | some f =>
          match f.stepSize with
          | some step =>
              match decExponent step with
              | some e => some (pyRound e.natAbs quantity)
              | none => none
          | none => none
      | none => some (pyRound 3 quantity)

/-- Embedding of `BinanceService.get_min_notional`: the MIN_NOTIONAL filter's
`notional` value, with $5.0 fallbacks at every failure point. -/
def get_min_notional (env : ExchangeEnv) : ℚ :=
  match env.symbol_info with
  | none => 5
  | some filters =>
    match filters.find? (fun f => f.filterType = "MIN_NOTIONAL") with
    | some f => f.notional.getD 5
    | none => 5

/-- Result dictionary of `BinanceService.open_position`. -/
structure OpenPositionResult where
  success : Bool
  entry_order : Option OrderResult
  sl_order : Option OrderResult
  tp_order : Option OrderResult
  message : String
deriving Repr, DecidableEq

/-- Step 0 of `BinanceService.open_position`: the duplicate-position
guard, returning the early-return error message when a live position
exists (distinguishing a margin-type mismatch). -/
def dup_check (env : ExchangeEnv) (margin_type : String) : Option String :=
  match env.existing_position with
  | some pos =>
      if pos.quantity > 0 then
        if pos.margin_type ≠ margin_type then
          some "Cannot open position: existing position with different margin type"
        else some "Position already exists for symbol"
      else none
  | none => none

/-- Steps 0–3.5 of `BinanceService.open_position` in source order:
duplicate-position guard, leverage setting, margin type (result
ignored by the source), quantity computation (Python falsiness: `None`
or `0` fails), and the minimum-notional check with the $0.10 buffer.
Returns the early-return error message of the first failing step. -/
def precheck_fail (env : ExchangeEnv) (position_size_usd : ℚ) (leverage : ℤ)
    (margin_type : String) (entry_price : ℚ) : Option String :=
  match dup_check env margin_type with
  | some msg => some msg
  | none =>
    if ¬env.set_leverage_ok then some "Failed to set leverage"
    else
      match calculate_quantity env position_size_usd leverage (some entry_price) with
      | none => some "Failed to calculate quantity"
      | some quantity =>
        if quantity = 0 then some "Failed to calculate quantity"
        else if quantity * entry_price ≤ get_min_notional env + 1/10 then
          some "Order rejected: notional value at or below minimum"
        else none

/-- Embedding of `BinanceService.open_position`: the prechecks above, then the limit
entry order (failure aborts with the entry result recorded), then
stop-loss and take-profit placement whose results are recorded without
affecting overall success. -/
def open_position (env : ExchangeEnv) (position_size_usd : ℚ) (leverage : ℤ)
    (margin_type : String) (entry_price : ℚ) : OpenPositionResult :=
  match precheck_fail env position_size_usd leverage margin_type entry_price with
  | some msg => ⟨false, none, none, none, msg⟩
  | none =>
    if ¬env.entry_result.success then
      ⟨false, some env.entry_result, none, none, "Entry order failed"⟩
    else
      ⟨true, some env.entry_result, some env.sl_result, some env.tp_result,
        "Limit order placed successfully with SL/TP"⟩

/-! ## TradeService (trade_service.py) -/

/-- The persisted fields of a `SignalMessage` row the services read. -/
structure SignalMessage where
  pair : String
  setup_type : String
  entry : ℚ
  stop_loss : ℚ
  take_profit : ℚ
deriving Repr, DecidableEq

/-- The persisted fields of a `Trade` row the services read or write. -/
structure Trade where
  pair : String
  side : String
  leverage : ℤ := 20
  entry_price : Option ℚ := none
  entry_quantity : Option ℚ := none
  binance_order_id : Option String := none
  stop_loss : Option ℚ := none
  take_profit : Option ℚ := none
  tp : Option ℚ := none
  status : String := "PENDING"
  opened_at : Option ℕ := none
  closed_at : Option ℕ := none
  exit_price : Option ℚ := none
  exit_reason : Option String := none
  pnl : Option ℚ := none
  pnl_percent : Option ℚ := none
deriving Repr, DecidableEq

/-- Per-user `TradeManagementConfig` row (leverage modelled as the
integer the orchestrator uses). -/
structure TradeConfig where
  margin_mode : String := "CROSSED"
  max_leverage : ℤ := 20
  max_position_size : ℚ := 1000
  sl_percentage : ℚ := 5
  tp_percentage : ℚ := 5/2
  auto_execute_trades : Bool := true
deriving Repr, DecidableEq

/-- Database state threaded through the services: stored raw messages
(sender, text), stored signals, stored trades. -/
structure Db where
  market_messages : List (String × String) := []
  signals : List SignalMessage := []
  trades : List Trade := []
deriving Repr, DecidableEq

structure ExecResult where
  success : Bool
  trade : Option Trade
  message : String
deriving Repr, DecidableEq

/-- Embedding of `TradeService.execute_trade_from_signal`: opens the position on the
exchange first; only on success is a `Trade` row created, with status
OPEN and `opened_at` set for a FILLED entry, status PENDING and no
`opened_at` for a NEW or PARTIALLY_FILLED entry, and OPEN otherwise.
`signal` is the result of the signal-id lookup; `now` the current time. -/
def execute_trade_from_signal (env : ExchangeEnv) (db : Db)
    (signal : Option SignalMessage) (config : TradeConfig) (now : ℕ) :
    ExecResult × Db :=
  match signal with
  | none => (⟨false, none, "Signal not found"⟩, db)
  | some sig =>
    let br := open_position env config.max_position_size config.max_leverage
      config.margin_mode sig.entry
    if br.success then
      let order_status : Option String := match br.entry_order with
        | some e => e.status
        | none => some "PENDING"
      let filled : Bool := order_status = some "FILLED"
      let resting : Bool :=
        order_status = some "NEW" || order_status = some "PARTIALLY_FILLED"
      let initial_status := if filled then "OPEN" else if resting then "PENDING" else "OPEN"
      let opened_at : Option ℕ :=
        if filled then some now else if resting then none else some now
      let trade : Trade :=
        { pair := sig.pair
          side := sig.setup_type
          leverage := config.max_leverage
          entry_price := match br.entry_order with
            | some e => e.price
            | none => some sig.entry
          entry_quantity := br.entry_order.bind (fun e => e.quantity)
          binance_order_id := br.entry_order.bind (fun e => e.order_id)
          stop_loss := some sig.stop_loss
          take_profit := some sig.take_profit
          tp := some sig.take_profit
          status := initial_status
          opened_at := opened_at }
      (⟨true, some trade, "Limit order placed successfully"⟩,
        { db with trades := db.trades ++ [trade] })
    else (⟨false, none, br.message⟩, db)

/-- Embedding of `TradeService.close_trade`: `trade` is the id lookup result and
`close_result` the exchange's answer to `close_position`.  Returns the
result dictionary together with the stored row after the call (the row
is mutated only on a successful exchange close). -/
def close_trade (trade : Option Trade) (close_result : OrderResult) (now : ℕ) :
    ExecResult × Option Trade :=
  match trade with
  | none => (⟨false, none, "Trade not found"⟩, none)
  | some t =>
    if t.status ≠ "OPEN" then
      (⟨false, none, "Trade is not open"⟩, some t)
    else
      if close_result.success then
        let pnl_fields : Option ℚ × Option ℚ :=
          match t.entry_price, close_result.price with
          | some ep, some cp =>
              if ep ≠ 0 ∧ cp ≠ 0 then
                let pct := if t.side = "LONG" then (cp - ep) / ep * 100
                  else (ep - cp) / ep * 100
                (some pct,
                  match t.entry_quantity with
                  | some q => if q ≠ 0 then some (pct / 100 * q * ep) else t.pnl
                  | none => t.pnl)
              else (t.pnl_percent, t.pnl)
          | _, _ => (t.pnl_percent, t.pnl)
        let t' := { t with
          status := "CLOSED"
          closed_at := some now
          exit_price := close_result.price
          exit_reason := some "MANUAL"
          pnl_percent := pnl_fields.1
          pnl := pnl_fields.2 }
        (⟨true, some t', "Trade closed successfully"⟩, some t')
      else (⟨false, none, close_result.message.getD "Unknown error"⟩, some t)

/-- Python truthiness of an optional float together with a comparison:
`opt and price ≤ opt` style guard of the reconciliation code. -/
def hitLE (cp : ℚ) : Option ℚ → Bool
  | some s => decide (s ≠ 0) && decide (cp ≤ s)
  | none => false

def hitGE (cp : ℚ) : Option ℚ → Bool
  | some s => decide (s ≠ 0) && decide (s ≤ cp)
  | none => false

/-- Loop body of `TradeService.sync_positions_with_binance` for one
locally OPEN trade: `binance_symbols` is the set of symbols with live
exchange positions, `price_of` the ticker lookup.  A trade whose pair is
absent is closed with `closed_at := now`; when a (nonzero) current price
is available the exit price is recorded and a direction-aware exit
reason inferred. -/
def sync_trade (binance_symbols : List String) (price_of : String → Option ℚ)
    (now : ℕ) (t : Trade) : Trade :=
  if t.pair ∈ binance_symbols then t
  else
    let t1 := { t with status := "CLOSED", closed_at := some now }
    match price_of t.pair with
    | some cp =>
        if cp = 0 then t1
        else
          let reason :=
            if t.side = "LONG" then
              if hitLE cp t.stop_loss then "SL_HIT"
              else if hitGE cp t.take_profit then "TP_HIT"
              else "UNKNOWN"
            else
              if hitGE cp t.stop_loss then "SL_HIT"
              else if hitLE cp t.take_profit then "TP_HIT"
              else "UNKNOWN"
          { t1 with exit_reason := some reason, exit_price := some cp }
    | none => t1

/-- Embedding of `TradeService.sync_positions_with_binance` over the user's OPEN
trades (which is what the database query returns). -/
def sync_positions_with_binance (open_trades : List Trade)
    (binance_symbols : List String) (price_of : String → Option ℚ) (now : ℕ) :
    List Trade :=
  open_trades.map (sync_trade binance_symbols price_of now)

structure ProcessResult where
  success : Bool
  signal : Option SignalMessage
  trade : Option Trade
  message : String
deriving Repr, DecidableEq

/-- Embedding of `TradeService.process_telegram_message`: stores the raw message,
parses it with the configured percentages, stores the signal on success
and — when both the per-call flag and the stored configuration agree —
executes the trade. -/
def process_telegram_message (env : ExchangeEnv) (config : TradeConfig) (db : Db)
    (text sender : String) (auto_execute : Bool) (now : ℕ) :
    ProcessResult × Db :=
  let db1 := { db with market_messages := db.market_messages ++ [(sender, text)] }
  match parse_message config.sl_percentage config.tp_percentage text.toList with
  | none => (⟨false, none, none, "Failed to parse signal from message"⟩, db1)
  | some parsed =>
    let signal : SignalMessage :=
      ⟨parsed.pair, parsed.setup_type, parsed.entry, parsed.stop_loss, parsed.take_profit⟩
    let db2 := { db1 with signals := db1.signals ++ [signal] }
    if auto_execute && config.auto_execute_trades then
      let er := execute_trade_from_signal env db2 (some signal) config now
      (⟨er.1.success, some signal, er.1.trade, er.1.message⟩, er.2)
    else
      (⟨true, some signal, none, "Signal parsed and stored successfully"⟩, db2)

/-- Embedding of `TelegramSignalProcessor._handle_signal` (telegram_listener.py): the
listener's intake path discards messages without a hashtag, then parses
with a freshly constructed parser (default 5%/2.5%) and returns without
any persistence when parsing fails; only parseable messages reach
`process_telegram_message`. -/
def handle_signal (env : ExchangeEnv) (config : TradeConfig) (db : Db)
    (text sender : String) (auto_execute_setting : Bool) (now : ℕ) : Db :=
  if ¬text.toList.contains '#' then db
  else
    match parse_message 5 (5/2) text.toList with
    | none => db
    | some _ =>
      (process_telegram_message env config db text sender auto_execute_setting now).2

/-! ## Concrete environments for the witnesses -/

/-- An exchange environment reporting an existing live position. -/
def c2env : ExchangeEnv :=
  { existing_position := some
      { symbol := "BTCUSDT", side := "LONG", entry_price := 50, quantity := 1,
        margin_type := "CROSSED" } }

/-- A successful entry-order response. -/
def c4entry : OrderResult :=
  { success := true, order_id := some "7", quantity := some 20, price := some 50,
    status := some "NEW" }

/-- An environment where all prechecks pass, the entry order succeeds
and both protective orders fail. -/
def c4env : ExchangeEnv :=
  { symbol_info := some [{ filterType := "LOT_SIZE", stepSize := some "1" }],
    entry_result := c4entry,
    sl_result := { success := false, message := some "sl placement failed" },
    tp_result := { success := false, message := some "tp placement failed" } }

/-- An environment whose entry order fills immediately. -/
def c3env : ExchangeEnv :=
  { symbol_info := some [{ filterType := "LOT_SIZE", stepSize := some "1" }],
    entry_result :=
      { success := true, order_id := some "42", quantity := some 400,
        price := some 50, status := some "FILLED" } }

def c3sig : SignalMessage := ⟨"BTCUSDT", "LONG", 50, 45, 55⟩

def c5trade : Trade :=
  { pair := "BTCUSDT", side := "LONG", stop_loss := some 40, take_profit := some 60,
    status := "OPEN" }

def c9env : ExchangeEnv :=
  { symbol_info := some [{ filterType := "LOT_SIZE", stepSize := some "1" }] }



/-! ## Rounding bounds -/

theorem ratFloor_eq (q : ℚ) : q.floor = ⌊q⌋ := by
  rw [Rat.floor_def, Rat.floor_def']

theorem rhe_le (q : ℚ) : (rhe q : ℚ) ≤ q + 1/2 := by
  have h1 : ((⌊q⌋ : ℤ) : ℚ) ≤ q := Int.floor_le q
  have h2 : q < (⌊q⌋ : ℤ) + 1 := Int.lt_floor_add_one q
  unfold rhe
  rw [ratFloor_eq]
  split_ifs with ha hb hc
  · linarith
  · push_cast
    linarith
  · linarith
  · push_cast
    linarith [le_of_not_lt ha, le_of_not_lt hb]

theorem rhe_ge (q : ℚ) : q - 1/2 ≤ (rhe q : ℚ) := by
  have h1 : ((⌊q⌋ : ℤ) : ℚ) ≤ q := Int.floor_le q
  have h2 : q < (⌊q⌋ : ℤ) + 1 := Int.lt_floor_add_one q
  unfold rhe
  rw [ratFloor_eq]
  split_ifs with ha hb hc
  · linarith
  · push_cast
    linarith
  · linarith [le_of_not_lt hb]
  · push_cast
    linarith

theorem pyRound_le (n : ℕ) (q : ℚ) : pyRound n q ≤ q + 1 / (2 * 10 ^ n) := by
  have hpos : (0 : ℚ) < 10 ^ n := by positivity
  unfold pyRound
  rw [div_le_iff₀ hpos]
  calc (rhe (q * 10 ^ n) : ℚ) ≤ q * 10 ^ n + 1/2 := rhe_le _
    _ = (q + 1 / (2 * 10 ^ n)) * 10 ^ n := by field_simp; ring

theorem pyRound_ge (n : ℕ) (q : ℚ) : q - 1 / (2 * 10 ^ n) ≤ pyRound n q := by
  have hpos : (0 : ℚ) < 10 ^ n := by positivity
  unfold pyRound
  rw [le_div_iff₀ hpos]
  calc (q - 1 / (2 * 10 ^ n)) * 10 ^ n = q * 10 ^ n - 1/2 := by field_simp; ring
    _ ≤ (rhe (q * 10 ^ n) : ℚ) := rhe_ge _

/-! ## Parser inversion lemmas -/

theorem dirAt_cases {cs : List Char} {d : String} (h : dirAt cs = some d) :
    d = "LONG" ∨ d = "SHORT" := by
  unfold dirAt at h
  split_ifs at h <;> simp_all

theorem searchDir_cases {cs : List Char} {d : String} (h : searchDir cs = some d) :
    d = "LONG" ∨ d = "SHORT" := by
  induction cs with
  | nil => simp [searchDir] at h
  | cons c t ih =>
    rw [searchDir] at h
    cases hd : dirAt (c :: t) with
    | some d0 =>
      rw [hd] at h
      simp at h
      subst h
      exact dirAt_cases hd
    | none =>
      rw [hd] at h
      simp at h
      exact ih h

theorem extract_direction_cases {msg : List Char} {d : String}
    (h : extract_direction msg = some d) : d = "LONG" ∨ d = "SHORT" := by
  unfold extract_direction at h
  cases hs : searchDir (upperStr msg) with
  | some d0 =>
    rw [hs] at h
    simp only [Option.some.injEq] at h
    subst h
    exact searchDir_cases hs
  | none =>
    rw [hs] at h
    split_ifs at h <;> simp_all

theorem searchDir_eq_none {cs : List Char}
    (hL : containsSub longTok cs = false) (hS : containsSub shortTok cs = false) :
    searchDir cs = none := by
  induction cs with
  | nil => rfl
  | cons c t ih =>
    rw [containsSub, Bool.or_eq_false_iff] at hL hS
    have hdir : dirAt (c :: t) = none := by
      unfold dirAt
      rw [if_neg (by simp [hL.1]), if_neg (by simp [hS.1])]
    rw [searchDir, hdir, ih hL.2 hS.2]
    rfl

theorem parse_message_some {s t : ℚ} {msg : List Char} {r : ParsedSignalData}
    (h : parse_message s t msg = some r) :
    extract_direction msg = some r.setup_type ∧ r.entry ≠ 0 ∧
    r.stop_loss = (calculate_sl_tp s t r.entry r.setup_type).1 ∧
    r.take_profit = (calculate_sl_tp s t r.entry r.setup_type).2 := by
  cases hp : extract_pair msg with
  | none => simp [parse_message, hp] at h
  | some pair =>
    cases hd : extract_direction msg with
    | none => simp [parse_message, hp, hd] at h
    | some direction =>
      cases he : extract_entry msg with
      | none => simp [parse_message, hp, hd, he] at h
      | some entry =>
        simp only [parse_message, hp, hd, he] at h
        by_cases hcond : (pair = "" ∨ entry = 0)
        · rw [if_pos hcond] at h
          exact absurd h (by simp)
        · rw [if_neg hcond] at h
          push_neg at hcond
          rw [← Option.some.inj h]
          exact ⟨rfl, hcond.2, rfl, rfl⟩

/-! ## Claims about the parser -/

/-- C1: for every successfully parsed message the returned signal's
stop-loss and take-profit equal the values derived from the entry price,
direction and configured percentages (LONG: `SL = E·(1 − sl%/100)`,
`TP = E·(1 + tp%/100)`; SHORT mirrored), rounded to 8 fractional
digits; in particular the documented example message with the default
5%/2.5% configuration yields pair BTCUSDT, LONG, entry 42000, computed
SL 39900 and TP 43050, overriding the stated 41000/43000. -/
theorem spec_C1 :
    (∀ (s t : ℚ) (msg : List Char) (r : ParsedSignalData),
        parse_message s t msg = some r →
        (r.setup_type = "LONG" →
          r.stop_loss = pyRound 8 (r.entry * (1 - s / 100)) ∧
          r.take_profit = pyRound 8 (r.entry * (1 + t / 100))) ∧
        (r.setup_type = "SHORT" →
          r.stop_loss = pyRound 8 (r.entry * (1 + s / 100)) ∧
          r.take_profit = pyRound 8 (r.entry * (1 - t / 100)))) ∧
    parse_message 5 (5/2) (String.toList "#BTCUSDT LONG\nEntry: 42000\nTP: 43000\nSL: 41000") =
      some ⟨"BTCUSDT", "LONG", 42000, 39900, 43050, some 41000, some 43000⟩ := by
  constructor
  · intro s t msg r h
    obtain ⟨_, _, hsl, htp⟩ := parse_message_some h
    constructor
    · intro hL
      rw [hsl, htp, hL]
      unfold calculate_sl_tp
      rw [if_pos rfl]
      exact ⟨rfl, rfl⟩
    · intro hS
      rw [hsl, htp, hS]
      unfold calculate_sl_tp
      rw [if_neg (by decide)]
      exact ⟨rfl, rfl⟩
  · decide

/-- C1 witness: the general part of C1 applied to the example message. -/
theorem spec_C1_witness :
    (39900 : ℚ) = pyRound 8 (42000 * (1 - 5 / 100)) ∧
    (43050 : ℚ) = pyRound 8 (42000 * (1 + (5/2) / 100)) :=
  (spec_C1.1 5 (5/2)
    (String.toList "#BTCUSDT LONG\nEntry: 42000\nTP: 43000\nSL: 41000")
    ⟨"BTCUSDT", "LONG", 42000, 39900, 43050, some 41000, some 43000⟩
    spec_C1.2).1 rfl

/-- C6 (counterexample): a message that parses successfully into a LONG
signal whose derived take-profit is **below** the entry price: with the
default 5%/2.5% configuration and entry 10⁻¹⁰, the 8-digit rounding
collapses both derived prices to 0, so `Entry < TP` fails. -/
theorem spec_C6_counterexample :
    parse_message 5 (5/2) (String.toList "#BTCUSDT LONG\nEntry: 0.0000000001") =
      some ⟨"BTCUSDT", "LONG", 1 / 10 ^ 10, 0, 0, none, none⟩ ∧
    ¬((1 : ℚ) / 10 ^ 10 < 0) := by
  constructor
  · decide
  · norm_num

/-- C6 (amended): for every successfully parsed signal whose entry price
is large enough that the 8-fractional-digit rounding cannot cross the
entry price (entry·sl%/100 and entry·tp%/100 both exceed the half-step
1/(2·10⁸) = 5·10⁻⁹), the derived prices satisfy `SL < Entry < TP` for
LONG and `TP < Entry < SL` for SHORT.  (Without that proviso the claim
fails: see the counterexample with entry 10⁻¹⁰.) -/
theorem spec_C6 (s t : ℚ) (msg : List Char) (r : ParsedSignalData)
    (h : parse_message s t msg = some r)
    (hs : 1 / (2 * 10 ^ 8) < r.entry * (s / 100))
    (ht : 1 / (2 * 10 ^ 8) < r.entry * (t / 100)) :
    (r.setup_type = "LONG" → r.stop_loss < r.entry ∧ r.entry < r.take_profit) ∧
    (r.setup_type = "SHORT" → r.take_profit < r.entry ∧ r.entry < r.stop_loss) := by
  obtain ⟨_, _, hsl, htp⟩ := parse_message_some h
  have hb1 := pyRound_le 8 (r.entry * (1 - s / 100))
  have hb2 := pyRound_ge 8 (r.entry * (1 + t / 100))
  have hb3 := pyRound_le 8 (r.entry * (1 - t / 100))
  have hb4 := pyRound_ge 8 (r.entry * (1 + s / 100))
  have hr1 : r.entry * (1 - s / 100) = r.entry - r.entry * (s / 100) := by ring
  have hr2 : r.entry * (1 + t / 100) = r.entry + r.entry * (t / 100) := by ring
  have hr3 : r.entry * (1 - t / 100) = r.entry - r.entry * (t / 100) := by ring
  have hr4 : r.entry * (1 + s / 100) = r.entry + r.entry * (s / 100) := by ring
  constructor
  · intro hL
    rw [hsl, htp, hL]
    unfold calculate_sl_tp
    rw [if_pos rfl]
    exact ⟨by linarith, by linarith⟩
  · intro hS
    rw [hsl, htp, hS]
    unfold calculate_sl_tp
    rw [if_neg (by decide)]
    exact ⟨by linarith, by linarith⟩

/-- C6 witness: the amended theorem applied to the documented example
message (entry 42000, defaults 5%/2.5%) yields 39900 < 42000 < 43050. -/
theorem spec_C6_witness : (39900 : ℚ) < 42000 ∧ (42000 : ℚ) < 43050 :=
  (spec_C6 5 (5/2)
    (String.toList "#BTCUSDT LONG\nEntry: 42000\nTP: 43000\nSL: 41000")
    ⟨"BTCUSDT", "LONG", 42000, 39900, 43050, some 41000, some 43000⟩
    (by decide) (by norm_num) (by norm_num)).1 rfl

/-- C7 (counterexample): a message containing both marker glyphs and no
literal LONG/SHORT token, on which direction extraction **succeeds**
with LONG instead of failing as the claim demands. -/
theorem spec_C7_counterexample :
    containsSub greenGlyph (greenGlyph ++ redGlyph) = true ∧
    containsSub redGlyph (greenGlyph ++ redGlyph) = true ∧
    containsSub longTok (upperStr (greenGlyph ++ redGlyph)) = false ∧
    containsSub shortTok (upperStr (greenGlyph ++ redGlyph)) = false ∧
    extract_direction (greenGlyph ++ redGlyph) = some "LONG" := by
  decide

/-- C7 (amended): for a message with no literal LONG/SHORT token,
direction extraction returns LONG whenever the bullish glyph is present
(even when the bearish glyph is also present), otherwise SHORT when the
bearish glyph is present, and fails only when neither glyph is present.
In particular extraction succeeds (with the corresponding direction)
when exactly one glyph is present, as the claim states, but the
both-glyphs case yields LONG rather than failing. -/
theorem spec_C7 (msg : List Char)
    (hL : containsSub longTok (upperStr msg) = false)
    (hS : containsSub shortTok (upperStr msg) = false) :
    extract_direction msg =
      (if containsSub greenGlyph msg then some "LONG"
       else if containsSub redGlyph msg then some "SHORT"
       else none) := by
  unfold extract_direction
  rw [searchDir_eq_none hL hS, hL, hS]
  simp

/-- C7 witness: the amended theorem applied to a message containing only
the bullish glyph. -/
theorem spec_C7_witness : extract_direction greenGlyph = some "LONG" := by
  rw [spec_C7 greenGlyph (by decide) (by decide)]
  decide

/-! ## Claims about the exchange orchestration -/

theorem open_position_of_precheck {env : ExchangeEnv} {m : ℚ} {lev : ℤ}
    {mt : String} {ep : ℚ} (h : precheck_fail env m lev mt ep ≠ none) :
    (open_position env m lev mt ep).success = false ∧
    (open_position env m lev mt ep).entry_order = none ∧
    (open_position env m lev mt ep).sl_order = none ∧
    (open_position env m lev mt ep).tp_order = none := by
  cases hm : precheck_fail env m lev mt ep with
  | none => exact absurd hm h
  | some msg =>
    refine ⟨?_, ?_, ?_, ?_⟩ <;> simp [open_position, hm]

/-- C2: every pre-check failure of `open_position` — an existing live
position (any margin type), a failed quantity computation (`None` or
zero), or an entry notional at or below the exchange minimum plus the
$0.10 buffer — yields an unsuccessful result in which no entry,
stop-loss or take-profit order has been placed. -/
theorem spec_C2 (env : ExchangeEnv) (m : ℚ) (lev : ℤ) (mt : String) (ep : ℚ)
    (h : (∃ pos, env.existing_position = some pos ∧ 0 < pos.quantity) ∨
         calculate_quantity env m lev (some ep) = none ∨
         calculate_quantity env m lev (some ep) = some 0 ∨
         (∃ q, calculate_quantity env m lev (some ep) = some q ∧
            q * ep ≤ get_min_notional env + 1/10)) :
    (open_position env m lev mt ep).success = false ∧
    (open_position env m lev mt ep).entry_order = none ∧
    (open_position env m lev mt ep).sl_order = none ∧
    (open_position env m lev mt ep).tp_order = none := by
  refine open_position_of_precheck ?_
  rcases h with ⟨pos, hpos, hq⟩ | hc | hc | ⟨q, hq1, hq2⟩
  · have hd : dup_check env mt ≠ none := by
      simp only [dup_check, hpos]
      rw [if_pos hq]
      split_ifs <;> simp
    cases hdc : dup_check env mt with
    | none => exact absurd hdc hd
    | some msgd => simp [precheck_fail, hdc]
  · cases hdc : dup_check env mt with
    | some msgd => simp [precheck_fail, hdc]
    | none =>
      by_cases hl : env.set_leverage_ok
      · simp [precheck_fail, hdc, hl, hc]
      · simp [precheck_fail, hdc, hl]
  · cases hdc : dup_check env mt with
    | some msgd => simp [precheck_fail, hdc]
    | none =>
      by_cases hl : env.set_leverage_ok
      · simp [precheck_fail, hdc, hl, hc]
      · simp [precheck_fail, hdc, hl]
  · cases hdc : dup_check env mt with
    | some msgd => simp [precheck_fail, hdc]
    | none =>
      by_cases hl : env.set_leverage_ok
      · simp only [precheck_fail, hdc, hl, hq1]
        by_cases hq0 : q = 0
        · simp [hq0]
        · rw [if_neg hq0, if_pos hq2]
          simp
      · simp [precheck_fail, hdc, hl]

/-- C4: whenever the entry order of `open_position` was placed and
succeeded, the overall result reports success, the entry order stands,
and the stop-loss/take-profit placement results are recorded in the
`sl_order`/`tp_order` fields regardless of whether those placements
succeeded or failed. -/
theorem spec_C4 (env : ExchangeEnv) (m : ℚ) (lev : ℤ) (mt : String) (ep : ℚ)
    (o : OrderResult)
    (he : (open_position env m lev mt ep).entry_order = some o)
    (hs : o.success = true) :
    (open_position env m lev mt ep).success = true ∧
    (open_position env m lev mt ep).entry_order = some o ∧
    (open_position env m lev mt ep).sl_order = some env.sl_result ∧
    (open_position env m lev mt ep).tp_order = some env.tp_result := by
  cases hm : precheck_fail env m lev mt ep with
  | some msg =>
    rw [show (open_position env m lev mt ep).entry_order = none by
      simp [open_position, hm]] at he
    exact absurd he (by simp)
  | none =>
    by_cases hes : env.entry_result.success
    · refine ⟨?_, he, ?_, ?_⟩ <;> simp [open_position, hm, hes]
    · have : (open_position env m lev mt ep).entry_order = some env.entry_result := by
        simp [open_position, hm, hes]
      rw [this] at he
      rw [← Option.some.inj he] at hs
      exact absurd hs (by simp [hes])

theorem open_position_success_entry {env : ExchangeEnv} {m : ℚ} {lev : ℤ}
    {mt : String} {ep : ℚ}
    (h : (open_position env m lev mt ep).success = true) :
    (open_position env m lev mt ep).entry_order = some env.entry_result ∧
    env.entry_result.success = true := by
  cases hm : precheck_fail env m lev mt ep with
  | some msg =>
    rw [show (open_position env m lev mt ep).success = false by
      simp [open_position, hm]] at h
    exact absurd h (by simp)
  | none =>
    by_cases hes : env.entry_result.success
    · exact ⟨by simp [open_position, hm, hes], hes⟩
    · rw [show (open_position env m lev mt ep).success = false by
        simp [open_position, hm, hes]] at h
      exact absurd h (by simp)

/-- C3: executing a trade from a signal creates a Trade row with status
OPEN and `opened_at` set when the orchestration succeeds with an
immediately FILLED entry order; with a resting (NEW) limit entry the row
is created with status PENDING and no `opened_at`; and when the
orchestration fails (anywhere before or at the entry-order step) no
Trade row is created at all — the database is returned unchanged. -/
theorem spec_C3 (env : ExchangeEnv) (db : Db) (sig : SignalMessage)
    (config : TradeConfig) (now : ℕ) :
    ((open_position env config.max_position_size config.max_leverage
        config.margin_mode sig.entry).success = true →
      (env.entry_result.status = some "FILLED" →
        ((execute_trade_from_signal env db (some sig) config now).1.trade.map
            Trade.status = some "OPEN") ∧
        ((execute_trade_from_signal env db (some sig) config now).1.trade.map
            Trade.opened_at = some (some now)) ∧
        (execute_trade_from_signal env db (some sig) config now).2.trades =
          db.trades ++
            (execute_trade_from_signal env db (some sig) config now).1.trade.toList) ∧
      (env.entry_result.status = some "NEW" →
        ((execute_trade_from_signal env db (some sig) config now).1.trade.map
            Trade.status = some "PENDING") ∧
        ((execute_trade_from_signal env db (some sig) config now).1.trade.map
            Trade.opened_at = some none) ∧
        (execute_trade_from_signal env db (some sig) config now).2.trades =
          db.trades ++
            (execute_trade_from_signal env db (some sig) config now).1.trade.toList)) ∧
    ((open_position env config.max_position_size config.max_leverage
        config.margin_mode sig.entry).success = false →
      (execute_trade_from_signal env db (some sig) config now).1.trade = none ∧
      (execute_trade_from_signal env db (some sig) config now).2 = db) := by
  constructor
  · intro hsucc
    obtain ⟨hentry, _⟩ := open_position_success_entry hsucc
    constructor
    · intro hst
      refine ⟨?_, ?_, ?_⟩ <;>
        simp [execute_trade_from_signal, hsucc, hentry, hst]
    · intro hst
      refine ⟨?_, ?_, ?_⟩ <;>
        simp [execute_trade_from_signal, hsucc, hentry, hst]
  · intro hfail
    constructor <;> simp [execute_trade_from_signal, hfail]

/-- C10: when the trade does not exist, is not OPEN, or the
exchange-side close fails, `close_trade` reports failure and the stored
Trade row is completely unchanged (exit fields are mutated only on a
successful close). -/
theorem spec_C10 (trade : Option Trade) (cr : OrderResult) (now : ℕ)
    (h : trade = none ∨ (∃ t, trade = some t ∧ t.status ≠ "OPEN") ∨
      cr.success = false) :
    (close_trade trade cr now).1.success = false ∧
    (close_trade trade cr now).2 = trade := by
  rcases h with rfl | ⟨t, rfl, hst⟩ | hcr
  · exact ⟨rfl, rfl⟩
  · constructor <;> simp [close_trade, hst]
  · cases trade with
    | none => exact ⟨rfl, rfl⟩
    | some t =>
      by_cases hst : t.status ≠ "OPEN"
      · constructor <;> simp [close_trade, hst]
      · constructor <;> simp [close_trade, hst, hcr]

/-- C5: the reconciliation pass closes every locally OPEN trade whose
symbol is absent from the exchange's live-position list, setting
`closed_at` to the reconciliation time, `exit_price` to the current
mark price, and a direction-consistent exit reason (LONG: price ≤ SL →
SL_HIT, price ≥ TP → TP_HIT, else UNKNOWN; SHORT mirrored). -/
theorem spec_C5 (trades : List Trade) (syms : List String)
    (price_of : String → Option ℚ) (now : ℕ) (t : Trade) (p sl tp : ℚ)
    (hmem : t ∈ trades) (habs : t.pair ∉ syms)
    (hp : price_of t.pair = some p) (hp0 : p ≠ 0)
    (hsl : t.stop_loss = some sl) (hsl0 : sl ≠ 0)
    (htp : t.take_profit = some tp) (htp0 : tp ≠ 0) :
    sync_trade syms price_of now t ∈
      sync_positions_with_binance trades syms price_of now ∧
    (sync_trade syms price_of now t).status = "CLOSED" ∧
    (sync_trade syms price_of now t).closed_at = some now ∧
    (sync_trade syms price_of now t).exit_price = some p ∧
    (t.side = "LONG" →
      (sync_trade syms price_of now t).exit_reason =
        some (if p ≤ sl then "SL_HIT" else if tp ≤ p then "TP_HIT" else "UNKNOWN")) ∧
    (t.side = "SHORT" →
      (sync_trade syms price_of now t).exit_reason =
        some (if sl ≤ p then "SL_HIT" else if p ≤ tp then "TP_HIT" else "UNKNOWN")) := by
  refine ⟨List.mem_map_of_mem _ hmem, ?_, ?_, ?_, ?_, ?_⟩
  all_goals simp only [sync_trade, if_neg habs, hp, if_neg hp0, hitLE, hitGE, hsl, htp]
  · intro hside
    rw [if_pos hside]
    by_cases h1 : p ≤ sl
    · simp [h1, hsl0]
    · by_cases h2 : tp ≤ p
      · simp [h1, h2, hsl0, htp0]
      · simp [h1, h2, hsl0, htp0]
  · intro hside
    rw [if_neg (by simp [hside])]
    by_cases h1 : sl ≤ p
    · simp [h1, hsl0]
    · by_cases h2 : p ≤ tp
      · simp [h1, h2, hsl0, htp0]
      · simp [h1, h2, hsl0, htp0]

/-- C9: the order quantity is `margin × leverage / entryPrice`,
quantized to the lot-size precision derived from the decimal exponent
of the step-size string as reported by the exchange — never via a
float conversion — and a step size of "1" yields zero fractional
digits. -/
theorem spec_C9 :
    (∀ (env : ExchangeEnv) (m : ℚ) (lev : ℤ) (p : ℚ)
        (filters : List ExchangeFilter) (f : ExchangeFilter) (s : String) (e : ℤ),
      env.symbol_info = some filters →
      filters.find? (fun f => f.filterType = "LOT_SIZE") = some f →
      f.stepSize = some s → decExponent s = some e → p ≠ 0 →
      calculate_quantity env m lev (some p) =
        some (pyRound e.natAbs (m * (lev : ℚ) / p))) ∧
    decExponent "1" = some 0 := by
  constructor
  · intro env m lev p filters f s e hinfo hfind hstep hexp hp
    simp [calculate_quantity, hinfo, hfind, hstep, hexp, hp]
  · decide

/-- C8 (counterexample): an inbound message that reaches the listener's
intake path (it contains the hashtag marker) but fails extraction is
dropped before any persistence: the raw-message table stays empty,
contradicting the unconditional-storage claim for this path. -/
theorem spec_C8_counterexample :
    (String.toList "#ABC").contains '#' = true ∧
    parse_message 5 (5/2) (String.toList "#ABC") = none ∧
    handle_signal {} {} {} "#ABC" "someSender" true 0 = ({} : Db) ∧
    ({} : Db).market_messages = [] := by
  refine ⟨rfl, by decide, ?_, rfl⟩
  decide

theorem execute_trade_market_messages (env : ExchangeEnv) (db : Db)
    (signal : Option SignalMessage) (config : TradeConfig) (now : ℕ) :
    (execute_trade_from_signal env db signal config now).2.market_messages =
      db.market_messages := by
  cases signal with
  | none => rfl
  | some sig =>
    by_cases hbs : (open_position env config.max_position_size config.max_leverage
        config.margin_mode sig.entry).success
    · simp [execute_trade_from_signal, hbs]
    · simp [execute_trade_from_signal, hbs]

/-- C8 (amended): the trade-service intake (`process_telegram_message`)
does store the raw message unconditionally, before and independent of
parse success; the listener path (`_handle_signal`), however, discards
hashtag-less or unparseable messages before any persistence (see the
counterexample), so unconditional raw storage holds only once
`process_telegram_message` is reached. -/
theorem spec_C8 (env : ExchangeEnv) (config : TradeConfig) (db : Db)
    (text sender : String) (auto_execute : Bool) (now : ℕ) :
    (process_telegram_message env config db text sender auto_execute now).2.market_messages =
      db.market_messages ++ [(sender, text)] := by
  cases hp : parse_message config.sl_percentage config.tp_percentage text.data with
  | none => simp [process_telegram_message, String.toList, hp]
  | some parsed =>
    by_cases ha : auto_execute && config.auto_execute_trades
    · simp [process_telegram_message, String.toList, hp, ha,
        execute_trade_market_messages]
    · simp [process_telegram_message, String.toList, hp, ha]

/-- C2 witness: with an existing live position, `open_position` fails
with no orders placed. -/
theorem spec_C2_witness :
    (open_position c2env 100 10 "CROSSED" 50).success = false ∧
    (open_position c2env 100 10 "CROSSED" 50).entry_order = none ∧
    (open_position c2env 100 10 "CROSSED" 50).sl_order = none ∧
    (open_position c2env 100 10 "CROSSED" 50).tp_order = none :=
  spec_C2 c2env 100 10 "CROSSED" 50 (Or.inl ⟨_, rfl, by norm_num⟩)

/-- C4 witness: the entry order succeeded, SL and TP placement both
failed, and the overall result still reports success with the failures
recorded. -/
theorem spec_C4_witness :
    (open_position c4env 100 10 "CROSSED" 50).success = true ∧
    (open_position c4env 100 10 "CROSSED" 50).entry_order = some c4entry ∧
    (open_position c4env 100 10 "CROSSED" 50).sl_order = some c4env.sl_result ∧
    (open_position c4env 100 10 "CROSSED" 50).tp_order = some c4env.tp_result :=
  spec_C4 c4env 100 10 "CROSSED" 50 c4entry (by decide) rfl

/-- C3 witness: a successful orchestration with a FILLED entry creates
exactly one Trade row, OPEN with `opened_at` set. -/
theorem spec_C3_witness :
    ((execute_trade_from_signal c3env {} (some c3sig) {} 7).1.trade.map
        Trade.status = some "OPEN") ∧
    ((execute_trade_from_signal c3env {} (some c3sig) {} 7).1.trade.map
        Trade.opened_at = some (some 7)) ∧
    (execute_trade_from_signal c3env {} (some c3sig) {} 7).2.trades =
      ({} : Db).trades ++
        (execute_trade_from_signal c3env {} (some c3sig) {} 7).1.trade.toList :=
  ((spec_C3 c3env {} c3sig {} 7).1 (by decide)).1 (by decide)

/-- C5 witness: a LONG trade absent from the exchange list, with the
current price at or below its stop-loss, is closed as SL_HIT with the
mark price recorded. -/
theorem spec_C5_witness :
    sync_trade [] (fun _ => some 39) 7 c5trade ∈
      sync_positions_with_binance [c5trade] [] (fun _ => some 39) 7 ∧
    (sync_trade [] (fun _ => some 39) 7 c5trade).status = "CLOSED" ∧
    (sync_trade [] (fun _ => some 39) 7 c5trade).closed_at = some 7 ∧
    (sync_trade [] (fun _ => some 39) 7 c5trade).exit_price = some 39 ∧
    (sync_trade [] (fun _ => some 39) 7 c5trade).exit_reason = some "SL_HIT" := by
  have h := spec_C5 [c5trade] [] (fun _ => some 39) 7 c5trade 39 40 60
    (by simp) (by simp) rfl (by norm_num) rfl (by norm_num) rfl (by norm_num)
  refine ⟨h.1, h.2.1, h.2.2.1, h.2.2.2.1, ?_⟩
  rw [h.2.2.2.2.1 rfl]
  norm_num

/-- C9 witness: the quantity formula at margin $100, leverage 10, entry
price 50, with step size "1" giving zero fractional digits. -/
theorem spec_C9_witness :
    calculate_quantity c9env 100 10 (some 50) =
      some (pyRound (Int.natAbs 0) (100 * ((10 : ℤ) : ℚ) / 50)) :=
  spec_C9.1 c9env 100 10 50 [{ filterType := "LOT_SIZE", stepSize := some "1" }]
    { filterType := "LOT_SIZE", stepSize := some "1" } "1" 0
    rfl (by decide) rfl (by decide) (by norm_num)

/-- C10 witness: closing a nonexistent trade fails and stores nothing. -/
theorem spec_C10_witness :
    (close_trade none { success := true } 0).1.success = false ∧
    (close_trade none { success := true } 0).2 = none :=
  spec_C10 none { success := true } 0 (Or.inl rfl)

end CryptoMgr
